import Mathlib

/-!
Verification of the connector execution framework of this repository.

The shared framework module (cache-key derivation, retry controller,
slicing and filtering pipeline, structural class checks) is exercised by
tests/test_connector.py but its own source file is not part of the source
set; the definitions below that carry a doc comment starting with
`Modelled from the spec:` embed that missing module faithfully from the
natural-language specification.  The wootric connector
(toucan_connectors/wootric/wootric_connector.py) is present in the source
set and is embedded directly from its code.
-/

/-- Modelled from the spec: a failure raised by a collaborator or by the
framework.  Python exceptions are modelled by their class name (kind) and
message; propagating a failure unchanged means propagating the same value. -/
structure Exc where
  kind : String
  msg : String
deriving DecidableEq, Repr

/-- Primitive cell / configuration values appearing in rows, connector
fields and data-source parameters. -/
inductive Prim
  | str (s : String)
  | int (n : Int)
  | bool (b : Bool)
  | null
deriving DecidableEq, Repr

/-- Column identifiers of a raw tabular result: textual, or non-textual
(purely numeric) labels, as produced by a collaborator. -/
inductive ColId
  | text (s : String)
  | num (n : Int)
deriving DecidableEq, Repr

/-- Modelled from the spec: column normalization (Step 2 of the pipeline)
converts a non-textual column identifier to its textual form. -/
def colIdStr : ColId → String
  | .text s => s
  | .num n => toString n

/-- One raw row: named columns with primitive values. -/
abbrev Row := List (ColId × Prim)

/-- One normalized row: all column identifiers textual. -/
abbrev RowN := List (String × Prim)

/-- Modelled from the spec: normalization of a whole row. -/
def normalizeRow (r : Row) : RowN :=
  r.map (fun kv => (colIdStr kv.1, kv.2))

/-- Value carried by a permission condition: a primitive, or a list of
primitives (for membership operators). -/
inductive PermVal
  | prim (p : Prim)
  | plist (ps : List Prim)
deriving DecidableEq, Repr

/-- Modelled from the spec: a Permissions expression is a leaf comparison
(column, operator, value) or a boolean combination. -/
inductive Permission
  | cond (column : String) (op : String) (value : PermVal)
  | pand (a b : Permission)
  | por (a b : Permission)
deriving DecidableEq, Repr

/-- Modelled from the spec: the comparison operators the permission filter
supports; any other operator is unsupported and fails with a
ValidationError. -/
def supportedOps : List String :=
  ["eq", "ne", "lt", "le", "gt", "ge", "in", "nin"]

/-- Modelled from the spec: checking a permission expression for
unsupported operators; performed before any row is examined, so an
unsupported operator fails with a ValidationError even on an empty result. -/
def validatePermission : Permission → Except Exc Unit
  | .cond _ op _ =>
    if op ∈ supportedOps then .ok ()
    else .error ⟨"ValidationError", "unsupported operator " ++ op⟩
  | .pand a b =>
    match validatePermission a with
    | .error e => .error e
    | .ok _ => validatePermission b
  | .por a b =>
    match validatePermission a with
    | .error e => .error e
    | .ok _ => validatePermission b

/-- Strict order comparison on primitive values; defined for two ints or
two strings, a type error otherwise. -/
def primLt : Prim → Prim → Except Exc Bool
  | .int a, .int b => .ok (decide (a < b))
  | .str a, .str b => .ok (decide (a < b))
  | _, _ => .error ⟨"TypeError", "unorderable types"⟩

/-- Non-strict order comparison on primitive values. -/
def primLe : Prim → Prim → Except Exc Bool
  | .int a, .int b => .ok (decide (a ≤ b))
  | .str a, .str b => .ok (decide (a ≤ b))
  | _, _ => .error ⟨"TypeError", "unorderable types"⟩

/-- Modelled from the spec: evaluation of one supported comparison
operator against a cell value. -/
def evalOp (op : String) (cell : Prim) (value : PermVal) : Except Exc Bool :=
  if op = "eq" then .ok (decide (value = .prim cell))
  else if op = "ne" then .ok (!decide (value = .prim cell))
  else if op = "lt" then
    match value with
    | .prim v => primLt cell v
    | .plist _ => .error ⟨"TypeError", "unorderable types"⟩
  else if op = "le" then
    match value with
    | .prim v => primLe cell v
    | .plist _ => .error ⟨"TypeError", "unorderable types"⟩
  else if op = "gt" then
    match value with
    | .prim v => primLt v cell
    | .plist _ => .error ⟨"TypeError", "unorderable types"⟩
  else if op = "ge" then
    match value with
    | .prim v => primLe v cell
    | .plist _ => .error ⟨"TypeError", "unorderable types"⟩
  else if op = "in" then
    match value with
    | .plist ps => .ok (decide (cell ∈ ps))
    | .prim _ => .error ⟨"TypeError", "argument of in must be a list"⟩
  else if op = "nin" then
    match value with
    | .plist ps => .ok (!decide (cell ∈ ps))
    | .prim _ => .error ⟨"TypeError", "argument of nin must be a list"⟩
  else .error ⟨"ValidationError", "unsupported operator " ++ op⟩

/-- Modelled from the spec: evaluation of a permission expression against
one row; looking up the condition column in the row (by its textual form),
conjunction and disjunction recursively. -/
def evalPermission : Permission → Row → Except Exc Bool
  | .cond column op value, row =>
    match row.find? (fun kv => colIdStr kv.1 == column) with
    | some kv => evalOp op kv.2 value
    | none => .error ⟨"KeyError", column⟩
  | .pand a b, row =>
    match evalPermission a row with
    | .error e => .error e
    | .ok ra =>
      match evalPermission b row with
      | .error e => .error e
      | .ok rb => .ok (ra && rb)
  | .por a b, row =>
    match evalPermission a row with
    | .error e => .error e
    | .ok ra =>
      match evalPermission b row with
      | .error e => .error e
      | .ok rb => .ok (ra || rb)

/-- Boolean view of a successful permission evaluation (false on error);
used to describe which rows the filter retains. -/
def rowPasses (p : Permission) (r : Row) : Bool :=
  match evalPermission p r with
  | .ok b => b
  | .error _ => false

/-- True when permission evaluation succeeds on the row. -/
def evalDefined (p : Permission) (r : Row) : Bool :=
  match evalPermission p r with
  | .ok _ => true
  | .error _ => false

/-- Modelled from the spec: row-by-row permission filtering, preserving
the collaborator order; an evaluation failure aborts the call. -/
def filterRowsAux (p : Permission) : List Row → Except Exc (List Row)
  | [] => .ok []
  | r :: rs =>
    match evalPermission p r with
    | .error e => .error e
    | .ok keep =>
      match filterRowsAux p rs with
      | .error e => .error e
      | .ok rest => .ok (if keep then r :: rest else rest)

/-- Modelled from the spec: Step 1 of the pipeline.  Absence of
Permissions means no filtering; a present expression is validated and then
applied row by row. -/
def filterRows : Option Permission → List Row → Except Exc (List Row)
  | none, rows => .ok rows
  | some p, rows =>
    match validatePermission p with
    | .error e => .error e
    | .ok _ => filterRowsAux p rows

/-- Statistics attached to a slice; total_returned_rows is the row count
after filtering and before slicing. -/
structure DataStats where
  total_returned_rows : Nat
deriving DecidableEq, Repr

/-- A slice result: the sliced normalized rows plus statistics. -/
structure DataSlice where
  df : List RowN
  stats : DataStats
deriving DecidableEq, Repr

/-- Modelled from the spec: the slicing and filtering pipeline applied to
a raw retrieved result — permission filtering, column normalization, then
offset and limit slicing with total_returned_rows computed before
slicing. -/
def process_df (raw : List Row) (permissions : Option Permission)
    (offset : Nat) (limit : Option Nat) : Except Exc DataSlice :=
  match filterRows permissions raw with
  | .error e => .error e
  | .ok filtered =>
    let normalized := filtered.map normalizeRow
    let total := normalized.length
    let sliced :=
      match limit with
      | none => normalized.drop offset
      | some m => (normalized.drop offset).take m
    .ok ⟨sliced, ⟨total⟩⟩

/-- Modelled from the spec: a retry policy — attempt budget and the
predicate selecting which failure kinds are retriable. -/
structure RetryPolicy where
  max_attempts : Nat
  retry_on : String → Bool

/-- Modelled from the spec: the framework default policy — 3 attempts,
every failure kind retriable. -/
def defaultRetryPolicy : RetryPolicy :=
  ⟨3, fun _ => true⟩

/-- Modelled from the spec: the retry state machine.  `retrieve` maps the
attempt number (starting at 1) to the outcome of the collaborator call;
`fuel` is the number of re-attempts still allowed.  Returns the final
outcome together with the number of attempts made.  A retriable failure
with fuel left leads to the next attempt; a failure whose kind is not
retriable, or a failure with no fuel left, propagates unchanged. -/
def runRetryAux (retryOn : String → Bool) (retrieve : Nat → Except Exc α) :
    Nat → Nat → Except Exc α × Nat
  | 0, attempt =>
    match retrieve attempt with
    | .ok v => (.ok v, attempt)
    | .error e => (.error e, attempt)
  | fuel + 1, attempt =>
    match retrieve attempt with
    | .ok v => (.ok v, attempt)
    | .error e =>
      if retryOn e.kind then runRetryAux retryOn retrieve fuel (attempt + 1)
      else (.error e, attempt)

/-- Modelled from the spec: run the retrieval under a policy of
`maxAttempts` total attempts, starting with attempt 1. -/
def runRetry (retryOn : String → Bool) (maxAttempts : Nat)
    (retrieve : Nat → Except Exc α) : Except Exc α × Nat :=
  runRetryAux retryOn retrieve (maxAttempts - 1) 1

/-- Modelled from the spec: a resolved policy of `none` means retry is
disabled — the retrieval is invoked exactly once, directly. -/
def runWithPolicy (policy : Option RetryPolicy)
    (retrieve : Nat → Except Exc α) : Except Exc α × Nat :=
  match policy with
  | none => (retrieve 1, 1)
  | some p => runRetry p.retry_on p.max_attempts retrieve

/-- Modelled from the spec: resolution order for the retry policy — an
explicit per-call override, else the policy the collaborator declares
(possibly `none`, disabling retry), else the framework default. -/
def resolveRetryPolicy (override : Option RetryPolicy)
    (declared : Option (Option RetryPolicy)) : Option RetryPolicy :=
  match override with
  | some p => some p
  | none =>
    match declared with
    | some d => d
    | none => some defaultRetryPolicy

/-- Modelled from the spec: `get_slice` — retry-wrapped retrieval followed
by the filtering, normalization and slicing pipeline, returning the slice
and its statistics. -/
def get_slice (policy : Option RetryPolicy)
    (retrieve : Nat → Except Exc (List Row)) (permissions : Option Permission)
    (offset : Nat) (limit : Option Nat) : Except Exc DataSlice :=
  match (runWithPolicy policy retrieve).1 with
  | .error e => .error e
  | .ok raw => process_df raw permissions offset limit

/-- Modelled from the spec: `get_df` — same as `get_slice` with no
slicing (offset 0, no limit), returning only the rows. -/
def get_df (policy : Option RetryPolicy)
    (retrieve : Nat → Except Exc (List Row))
    (permissions : Option Permission) : Except Exc (List RowN) :=
  match get_slice policy retrieve permissions 0 none with
  | .error e => .error e
  | .ok slice => .ok slice.df

/-- One vendor-specific connector field: name, value, and whether the
field is secret-typed (like the SecretStr password of the clickhouse
connector). -/
structure ConnField where
  key : String
  value : Prim
  secret : Bool
deriving DecidableEq, Repr

/-- Modelled from the spec: a connector instance — type tag, name, and
vendor-specific fields. -/
structure ConnectorConfig where
  type : String
  name : String
  fields : List ConnField
deriving DecidableEq, Repr

/-- Modelled from the spec: a data-source instance — domain, name, the
query field, and the parameters mapping. -/
structure DataSourceModel where
  domain : String
  name : String
  query : String
  parameters : List (String × Prim)
deriving DecidableEq, Repr

/-- Key order used to canonicalize a mapping for serialization. -/
def keyLe (p q : String × Prim) : Prop :=
  p.1 ≤ q.1

instance : DecidableRel keyLe :=
  fun p q => inferInstanceAs (Decidable (p.1 ≤ q.1))

/-- Modelled from the spec: canonical, order-stable representation of a
mapping — entries sorted by key so equal logical content always
serializes identically. -/
def canonParams (l : List (String × Prim)) : List (String × Prim) :=
  List.insertionSort keyLe l

/-- Modelled from the spec: the serialized representation of a connector
for hashing — secret-typed fields are excluded, the rest canonicalized. -/
def canonConnFields (fs : List ConnField) : List (String × Prim) :=
  canonParams ((fs.filter (fun f => !f.secret)).map (fun f => (f.key, f.value)))

/-- Canonical serialized representation of a data source. -/
structure DataSourceRepr where
  domain : String
  name : String
  query : String
  parameters : List (String × Prim)
deriving DecidableEq, Repr

/-- Modelled from the spec: the cache key.  The source derives a
fixed-length digest of the concatenated canonical serializations; the
digest is stable and collision-resistant, so it is modelled as the
canonical pre-digest representation itself — two keys are equal exactly
when their canonical serializations are equal. -/
structure CacheKey where
  connector_type : String
  connector_name : String
  connector_fields : List (String × Prim)
  datasource : Option DataSourceRepr
  permissions : Option Permission
deriving DecidableEq, Repr

/-- Canonical serialization of a data source: every field participates,
with the parameters mapping canonicalized. -/
def dsRepr (ds : DataSourceModel) : DataSourceRepr :=
  ⟨ds.domain, ds.name, ds.query, canonParams ds.parameters⟩

/-- Modelled from the spec: `get_cache_key` — a pure function of the
connector instance, the optional data source and the optional permissions,
excluding secret fields, canonicalizing mappings, and digesting the
result. -/
def get_cache_key (c : ConnectorConfig) (ds : Option DataSourceModel)
    (permissions : Option Permission) : CacheKey :=
  ⟨c.type, c.name, canonConnFields c.fields, ds.map dsRepr, permissions⟩

/-- Mutation of the query field of a data source (as in
`ds.query = ...` in the tests, in explicit-state style). -/
def setQuery (ds : DataSourceModel) (q : String) : DataSourceModel :=
  { ds with query := q }

/-- Lookup of a key in a parameters mapping. -/
def plookup (k : String) : List (String × Prim) → Option Prim
  | [] => none
  | kv :: rest => if kv.1 = k then some kv.2 else plookup k rest

/-- Modelled from the spec: a concrete connector class declaration as
written by a collaborator — its class name and the optional
data_source_model declaration. -/
structure ConnectorClassDecl where
  name : String
  data_source_model : Option String
deriving DecidableEq, Repr

/-- A successfully defined connector class, from which instances can be
constructed. -/
structure ConnectorClass where
  name : String
  data_source_model : String
deriving DecidableEq, Repr

/-- Modelled from the spec: the structural check performed at
class-definition time — a declaration without a data_source_model is
rejected with a TypeError naming the class and the missing attribute,
before any instance exists. -/
def defineConnectorClass (d : ConnectorClassDecl) : Except Exc ConnectorClass :=
  match d.data_source_model with
  | none => .error ⟨"TypeError", d.name ++ " has no data_source_model attribute."⟩
  | some m => .ok ⟨d.name, m⟩

/-- An instance of a successfully defined connector class; constructing
one requires the class value, which only a successful definition
produces. -/
structure ConnectorInstance where
  cls : ConnectorClass
  name : String
deriving DecidableEq, Repr

/-- Instance construction from a defined class. -/
def mkConnectorInstance (cls : ConnectorClass) (instName : String) :
    ConnectorInstance :=
  ⟨cls, instName⟩

/-- A json document returned by the wootric API, as an association list. -/
abbrev WDoc := List (String × String)

/-- Python `range(start, stop, step)` for a positive step, as a list. -/
def pyRange (start stop step : Nat) : List Nat :=
  (List.range (((stop - start) + step - 1) / step)).map (fun i => start + step * i)

/-- Projection of the properties `props` out of one document, as in the
dict comprehension of fetch_wootric_data; a missing property is a
KeyError. -/
def pickProps (props : List String) (d : WDoc) : Except Exc WDoc :=
  props.mapM (fun prop =>
    match d.lookup prop with
    | some v => .ok (prop, v)
    | none => .error ⟨"KeyError", prop⟩)

/-- The body of the pagination loop of fetch_wootric_data
(toucan_connectors/wootric/wootric_connector.py), one outer iteration per
element of the Python range over `page`.  `fetchUrl` stands for the HTTP
environment (batch_fetch applied to one URL).  The second component of
the result is the list of request URLs built, in order, added here to
observe which pages are requested. -/
def fetchWootricLoop (fetchUrl : String → List WDoc) (query : String)
    (props_fetched : Option (List String)) (batch_size max_pages : Nat) :
    List Nat → List WDoc → List String → Except Exc (List WDoc) × List String
  | [], all_data, log => (.ok all_data, log)
  | page :: rest, all_data, log =>
    let per_batch := 10
    let page_to_crawl := if max_pages < page + per_batch then max_pages else per_batch
    let urls := (pyRange 1 (page + page_to_crawl) 1).map (fun pagenum =>
      query ++ "&page=" ++ toString pagenum ++ "&per_page=" ++ toString batch_size)
    let responses := urls.map fetchUrl
    let data := responses.flatten
    let extended : Except Exc (List WDoc) :=
      match props_fetched with
      | none => .ok (all_data ++ data)
      | some props =>
        match data.mapM (pickProps props) with
        | .error e => .error e
        | .ok picked => .ok (all_data ++ picked)
    match extended with
    | .error e => (.error e, log ++ urls)
    | .ok all_data2 =>
      match responses.getLast? with
      | none => (.error ⟨"IndexError", "list index out of range"⟩, log ++ urls)
      | some lastResp =>
        if lastResp.isEmpty then (.ok all_data2, log ++ urls)
        else fetchWootricLoop fetchUrl query props_fetched batch_size max_pages
          rest all_data2 (log ++ urls)

/-- fetch_wootric_data of the wootric connector: crawl the endpoint
`query` page by page, batching requests, stopping early when the last
response of a batch is empty; returns the accumulated documents and the
list of request URLs built. -/
def fetch_wootric_data (fetchUrl : String → List WDoc) (query : String)
    (props_fetched : Option (List String)) (batch_size max_pages : Nat) :
    Except Exc (List WDoc) × List String :=
  fetchWootricLoop fetchUrl query props_fetched batch_size max_pages
    (pyRange 1 (max_pages + 1) 10) [] []

/-- Test connector mirroring DataConnector of tests/test_connector.py. -/
def testConnector : ConnectorConfig :=
  ⟨"MyDB", "a", [⟨"a_parameter", .str "", false⟩]⟩

/-- Data source with query "much caching" (test_get_cache_key). -/
def dsQueryA : DataSourceModel :=
  ⟨"yo", "my_name", "much caching", []⟩

/-- Data source with query "wow" (test_get_cache_key). -/
def dsQueryB : DataSourceModel :=
  ⟨"yo", "my_name", "wow", []⟩

/-- Data source with parameters a=1 (test_get_cache_key_with_custom_variable_syntax). -/
def dsParams1 : DataSourceModel :=
  ⟨"foo", "ds_1", "bar=@a", [("a", .int 1)]⟩

/-- Data source with parameters a=2 (test_get_cache_key_with_custom_variable_syntax). -/
def dsParams2 : DataSourceModel :=
  ⟨"foo", "ds_1", "bar=@a", [("a", .int 2)]⟩

/-- The permission used by
test_get_cache_key_should_be_different_with_different_permissions. -/
def permIn : Permission :=
  .cond "a_group" "in" (.plist [.str "x"])

/-- Connector shaped like ClickhouseConnector
(toucan_connectors/clickhouse/clickhouse_connector.py): host, port, user,
and a secret-typed password. -/
def clickhouseConnector (host : String) (port : Int) (user password : String) :
    ConnectorConfig :=
  ⟨"clickhouse", "my_clickhouse",
    [⟨"host", .str host, false⟩, ⟨"port", .int port, false⟩,
     ⟨"user", .str user, false⟩, ⟨"password", .str password, true⟩]⟩

/-- The RuntimeError raised by the unreliable test connectors. -/
def runtimeError : Exc :=
  ⟨"RuntimeError", "try again!"⟩

/-- A retrieval failing with RuntimeError on every attempt. -/
def failingRetrieve : Nat → Except Exc (List Row) :=
  fun _ => .error runtimeError

/-- Retriable predicate of CustomRetryOnDataConnector: only ValueError. -/
def retryOnValueError : String → Bool :=
  fun k => k == "ValueError"

/-- Default retriable predicate: every failure kind. -/
def retryAll : String → Bool :=
  fun _ => true

/-- The rows produced by CustomPolicyDataConnector on success. -/
def sampleRows : List Row :=
  [[(.text "1", .int 42)], [(.text "1", .int 32)]]

/-- A retrieval failing retriably on attempts 1 and 2 and succeeding on
attempt 3. -/
def unreliableRetrieve : Nat → Except Exc (List Row) :=
  fun n => if n ≤ 2 then .error runtimeError else .ok sampleRows

/-- The five rows of test_get_slice. -/
def fiveRows : List Row :=
  [[(.text "A", .int 1)], [(.text "A", .int 2)], [(.text "A", .int 3)],
   [(.text "A", .int 4)], [(.text "A", .int 5)]]

/-- The rows of test_get_df_with_permissions. -/
def rowsA : List Row :=
  [[(.text "A", .int 1)], [(.text "A", .int 2)]]

/-- The permission of test_get_df_with_permissions. -/
def permEqA : Permission :=
  .cond "A" "eq" (.prim (.int 1))

/-- Class declaration missing data_source_model (test_missing_attributes). -/
def missingDecl : ConnectorClassDecl :=
  ⟨"MissingDataConnector2", none⟩

/-- Class declaration with data_source_model present. -/
def goodDecl : ConnectorClassDecl :=
  ⟨"DataConnector", some "DataSource"⟩

theorem runRetryAux_ok (retryOn : String → Bool) (retrieve : Nat → Except Exc α)
    (fuel attempt : Nat) (v : α) (h : retrieve attempt = .ok v) :
    runRetryAux retryOn retrieve fuel attempt = (.ok v, attempt) := by
  cases fuel <;> simp [runRetryAux, h]

theorem runRetryAux_fatal (retryOn : String → Bool) (retrieve : Nat → Except Exc α)
    (fuel attempt : Nat) (e : Exc) (h : retrieve attempt = .error e)
    (hr : retryOn e.kind = false) :
    runRetryAux retryOn retrieve fuel attempt = (.error e, attempt) := by
  cases fuel <;> simp [runRetryAux, h, hr]

theorem runRetryAux_retriable_step (retryOn : String → Bool)
    (retrieve : Nat → Except Exc α) (fuel attempt : Nat) (e : Exc)
    (h : retrieve attempt = .error e) (hr : retryOn e.kind = true) :
    runRetryAux retryOn retrieve (fuel + 1) attempt
      = runRetryAux retryOn retrieve fuel (attempt + 1) := by
  simp [runRetryAux, h, hr]

theorem runRetryAux_all_fail (retryOn : String → Bool)
    (retrieve : Nat → Except Exc α) (f : Nat → Exc)
    (hfail : ∀ i, retrieve i = .error (f i))
    (hret : ∀ i, retryOn (f i).kind = true) :
    ∀ fuel attempt, runRetryAux retryOn retrieve fuel attempt
      = (.error (f (attempt + fuel)), attempt + fuel) := by
  intro fuel
  induction fuel with
  | zero =>
    intro attempt
    simp [runRetryAux, hfail attempt]
  | succ n ih =>
    intro attempt
    rw [runRetryAux_retriable_step retryOn retrieve n attempt (f attempt)
      (hfail attempt) (hret attempt), ih (attempt + 1)]
    have harith : attempt + 1 + n = attempt + (n + 1) := by omega
    rw [harith]

theorem runWithPolicy_ok (policy : Option RetryPolicy)
    (retrieve : Nat → Except Exc α) (v : α) (h : retrieve 1 = .ok v) :
    runWithPolicy policy retrieve = (.ok v, 1) := by
  cases policy with
  | none => simp [runWithPolicy, h]
  | some p =>
    show runRetry p.retry_on p.max_attempts retrieve = _
    exact runRetryAux_ok p.retry_on retrieve (p.max_attempts - 1) 1 v h

theorem get_slice_ok (policy : Option RetryPolicy)
    (retrieve : Nat → Except Exc (List Row)) (rows : List Row)
    (permissions : Option Permission) (offset : Nat) (limit : Option Nat)
    (h : retrieve 1 = .ok rows) :
    get_slice policy retrieve permissions offset limit
      = process_df rows permissions offset limit := by
  simp [get_slice, runWithPolicy_ok policy retrieve rows h]

theorem plookup_eq_none_iff (k : String) (l : List (String × Prim)) :
    plookup k l = none ↔ k ∉ l.map Prod.fst := by
  induction l with
  | nil => simp [plookup]
  | cons hd tl ih =>
    by_cases h : hd.1 = k
    · simp [plookup, h]
    · simp [plookup, h, ih, Ne.symm h]

theorem plookup_mem (k : String) (v : Prim) (l : List (String × Prim))
    (h : plookup k l = some v) : (k, v) ∈ l := by
  induction l with
  | nil => simp [plookup] at h
  | cons hd tl ih =>
    by_cases hk : hd.1 = k
    · have hv : hd.2 = v := by simpa [plookup, hk] using h
      have hhd : hd = (k, v) := by
        cases hd
        simp_all
      rw [hhd]
      exact List.mem_cons_self _ _
    · simp only [plookup] at h
      rw [if_neg hk] at h
      exact List.mem_cons_of_mem hd (ih h)

theorem mem_plookup (k : String) (v : Prim) (l : List (String × Prim))
    (nd : (l.map Prod.fst).Nodup) (h : (k, v) ∈ l) : plookup k l = some v := by
  induction l with
  | nil => simp at h
  | cons hd tl ih =>
    rw [List.map_cons, List.nodup_cons] at nd
    rcases List.mem_cons.mp h with heq | hmem
    · rw [← heq]
      simp [plookup]
    · have hk : hd.1 ≠ k := by
        intro hc
        exact nd.1 (hc ▸ List.mem_map_of_mem Prod.fst hmem)
      simp only [plookup, hk, if_neg, if_false]
      exact ih nd.2 hmem

theorem plookup_eq_of_perm (k : String) (l1 l2 : List (String × Prim))
    (hp : List.Perm l1 l2) (nd : (l1.map Prod.fst).Nodup) :
    plookup k l1 = plookup k l2 := by
  have nd2 : (l2.map Prod.fst).Nodup := ((hp.map Prod.fst).nodup_iff).mp nd
  cases h : plookup k l1 with
  | some v =>
    exact (mem_plookup k v l2 nd2 (hp.mem_iff.mp (plookup_mem k v l1 h))).symm
  | none =>
    have h1 : k ∉ l1.map Prod.fst := (plookup_eq_none_iff k l1).mp h
    have h2 : k ∉ l2.map Prod.fst := fun hc =>
      h1 ((hp.map Prod.fst).mem_iff.mpr hc)
    exact ((plookup_eq_none_iff k l2).mpr h2).symm

theorem canonParams_perm (l : List (String × Prim)) :
    List.Perm (canonParams l) l :=
  List.perm_insertionSort keyLe l

theorem filterRowsAux_eq_filter (p : Permission) (rows : List Row)
    (hdef : ∀ r ∈ rows, evalDefined p r = true) :
    filterRowsAux p rows = .ok (rows.filter (rowPasses p)) := by
  induction rows with
  | nil => simp [filterRowsAux]
  | cons r rs ih =>
    have hr : evalDefined p r = true := hdef r (List.mem_cons_self r rs)
    have hrs : ∀ x ∈ rs, evalDefined p x = true := fun x hx =>
      hdef x (List.mem_cons_of_mem r hx)
    cases hev : evalPermission p r with
    | error e => simp [evalDefined, hev] at hr
    | ok b =>
      have hpass : rowPasses p r = b := by simp [rowPasses, hev]
      simp [filterRowsAux, hev, ih hrs, List.filter_cons, hpass]

/-- Claim C1: cache key derivation is deterministic and round-trips — for
every (connector, data source, permissions) triple, repeated calls of
get_cache_key on the same logical inputs return the same key, and after
mutating the query field of the data source and then restoring its
original value, get_cache_key returns the original key again. -/
theorem cache_key_deterministic_and_roundtrips (c : ConnectorConfig)
    (ds : DataSourceModel) (p : Option Permission) (v : String) :
    get_cache_key c (some ds) p = get_cache_key c (some ds) p ∧
    get_cache_key c (some (setQuery (setQuery ds v) ds.query)) p
      = get_cache_key c (some ds) p := by
  constructor
  · rfl
  · have h : setQuery (setQuery ds v) ds.query = ds := rfl
    rw [h]

/-- Witness for C1 at the inputs of test_get_cache_key: connector named
my_name, query mutated from "much caching" to "wow" and back. -/
theorem cache_key_deterministic_and_roundtrips_witness :
    get_cache_key testConnector (some dsQueryA) none
      = get_cache_key testConnector (some dsQueryA) none ∧
    get_cache_key testConnector
        (some (setQuery (setQuery dsQueryA "wow") dsQueryA.query)) none
      = get_cache_key testConnector (some dsQueryA) none :=
  cache_key_deterministic_and_roundtrips testConnector dsQueryA none "wow"

/-- Claim C2: secret-marked connector fields do not influence the cache
key — two connector instances agreeing on type, name and all non-secret
fields (so differing only in secret-typed fields) receive identical
cache keys, for every data source and permissions. -/
theorem secret_fields_not_in_cache_key (c1 c2 : ConnectorConfig)
    (ds : Option DataSourceModel) (p : Option Permission)
    (htype : c1.type = c2.type) (hname : c1.name = c2.name)
    (hpub : c1.fields.filter (fun f => !f.secret)
      = c2.fields.filter (fun f => !f.secret)) :
    get_cache_key c1 ds p = get_cache_key c2 ds p := by
  simp only [get_cache_key, canonConnFields, htype, hname, hpub]

/-- Witness for C2: two clickhouse connectors differing only in the
secret password field receive the same key. -/
theorem secret_fields_not_in_cache_key_witness :
    get_cache_key (clickhouseConnector "h" 9000 "u" "pw_one") none none
      = get_cache_key (clickhouseConnector "h" 9000 "u" "pw_two") none none :=
  secret_fields_not_in_cache_key
    (clickhouseConnector "h" 9000 "u" "pw_one")
    (clickhouseConnector "h" 9000 "u" "pw_two")
    none none rfl rfl rfl

/-- Claim C9: a connector class declaration that omits data_source_model
is rejected at class-definition time with a TypeError whose message names
the class and the missing attribute, so no instance of it can be
constructed; a declaration with the attribute defines a class from which
instances construct normally. -/
theorem missing_data_source_model_rejected :
    (∀ d : ConnectorClassDecl, d.data_source_model = none →
      defineConnectorClass d
        = .error ⟨"TypeError", d.name ++ " has no data_source_model attribute."⟩) ∧
    (∀ (d : ConnectorClassDecl) (m : String), d.data_source_model = some m →
      defineConnectorClass d = .ok ⟨d.name, m⟩ ∧
      (mkConnectorInstance ⟨d.name, m⟩ "my_name").cls.data_source_model = m) := by
  constructor
  · intro d hd
    simp [defineConnectorClass, hd]
  · intro d m hd
    exact ⟨by simp [defineConnectorClass, hd], rfl⟩

/-- Witness for C9 at the classes of test_missing_attributes: the
declaration MissingDataConnector2 without data_source_model is rejected
with the TypeError naming it; DataConnector with data_source_model
defines and instantiates. -/
theorem missing_data_source_model_rejected_witness :
    defineConnectorClass missingDecl
      = .error ⟨"TypeError",
          "MissingDataConnector2" ++ " has no data_source_model attribute."⟩ ∧
    (defineConnectorClass goodDecl = .ok ⟨"DataConnector", "DataSource"⟩ ∧
      (mkConnectorInstance ⟨"DataConnector", "DataSource"⟩ "my_name").cls.data_source_model
        = "DataSource") :=
  ⟨missing_data_source_model_rejected.1 missingDecl rfl,
   missing_data_source_model_rejected.2 goodDecl "DataSource" rfl⟩

/-- Claim C4: a failure kind outside the declared retriable set is fatal —
when the first retrieval attempt raises a kind the retriable predicate
rejects, the failure propagates immediately, exactly one attempt is made
whatever the attempt budget, and get_df surfaces that failure. -/
theorem nonretriable_failure_is_fatal (retryOn : String → Bool)
    (maxAttempts : Nat) (retrieve : Nat → Except Exc (List Row)) (e : Exc)
    (p : Option Permission) (hfirst : retrieve 1 = .error e)
    (hfatal : retryOn e.kind = false) :
    runRetry retryOn maxAttempts retrieve = (.error e, 1) ∧
    get_df (some ⟨maxAttempts, retryOn⟩) retrieve p = .error e := by
  have hrun : runRetry retryOn maxAttempts retrieve = (.error e, 1) :=
    runRetryAux_fatal retryOn retrieve (maxAttempts - 1) 1 e hfirst hfatal
  refine ⟨hrun, ?_⟩
  simp [get_df, get_slice, runWithPolicy, hrun]

/-- Witness for C4 at the setting of test_custom_retry_on_df: the
retriable set contains only ValueError, the retrieval raises RuntimeError;
one attempt, failure surfaced, even with a budget of 5 attempts. -/
theorem nonretriable_failure_is_fatal_witness :
    runRetry retryOnValueError 5 failingRetrieve = (.error runtimeError, 1) ∧
    get_df (some ⟨5, retryOnValueError⟩) failingRetrieve none = .error runtimeError :=
  nonretriable_failure_is_fatal retryOnValueError 5 failingRetrieve
    runtimeError none rfl rfl

/-- Claim C5: a collaborator whose retrieval fails retriably on attempts 1
and 2 and succeeds on attempt 3, run under a policy of max_attempts = 5,
returns the successful value after exactly 3 attempts, and get_df returns
the processed successful rows. -/
theorem two_retriable_failures_then_success (retryOn : String → Bool)
    (retrieve : Nat → Except Exc (List Row)) (e1 e2 : Exc) (v : List Row)
    (h1 : retrieve 1 = .error e1) (hr1 : retryOn e1.kind = true)
    (h2 : retrieve 2 = .error e2) (hr2 : retryOn e2.kind = true)
    (h3 : retrieve 3 = .ok v) :
    runRetry retryOn 5 retrieve = (.ok v, 3) ∧
    get_df (some ⟨5, retryOn⟩) retrieve none = .ok (v.map normalizeRow) := by
  have s1 : runRetry retryOn 5 retrieve = runRetryAux retryOn retrieve 3 2 :=
    runRetryAux_retriable_step retryOn retrieve 3 1 e1 h1 hr1
  have s2 : runRetryAux retryOn retrieve 3 2 = runRetryAux retryOn retrieve 2 3 :=
    runRetryAux_retriable_step retryOn retrieve 2 2 e2 h2 hr2
  have s3 : runRetryAux retryOn retrieve 2 3 = (.ok v, 3) :=
    runRetryAux_ok retryOn retrieve 2 3 v h3
  have hrun : runRetry retryOn 5 retrieve = (.ok v, 3) := (s1.trans s2).trans s3
  refine ⟨hrun, ?_⟩
  simp [get_df, get_slice, runWithPolicy, hrun, process_df, filterRows]

/-- Witness for C5: the unreliable retrieval failing twice with
RuntimeError and then producing the rows of CustomPolicyDataConnector,
under max_attempts = 5 and the default all-retriable predicate. -/
theorem two_retriable_failures_then_success_witness :
    runRetry retryAll 5 unreliableRetrieve = (.ok sampleRows, 3) ∧
    get_df (some ⟨5, retryAll⟩) unreliableRetrieve none
      = .ok (sampleRows.map normalizeRow) :=
  two_retriable_failures_then_success retryAll unreliableRetrieve
    runtimeError runtimeError sampleRows rfl rfl rfl rfl rfl

/-- Claim C6: when every attempt fails retriably and the budget is
exhausted, the failure of the last attempt propagates to the caller as the
very same value (no wrapping); with max_attempts = 1 the first failure
propagates after a single attempt whatever the retriable set; with retry
disabled (policy `none`) the retrieval is invoked exactly once and get_df
surfaces its first failure. -/
theorem exhausted_attempts_propagate_last_failure :
    (∀ (retryOn : String → Bool) (m : Nat) (retrieve : Nat → Except Exc (List Row))
      (f : Nat → Exc), 1 ≤ m →
      (∀ i, retrieve i = .error (f i)) →
      (∀ i, retryOn (f i).kind = true) →
      runRetry retryOn m retrieve = (.error (f m), m)) ∧
    (∀ (retryOn : String → Bool) (retrieve : Nat → Except Exc (List Row)) (e : Exc),
      retrieve 1 = .error e →
      runRetry retryOn 1 retrieve = (.error e, 1)) ∧
    (∀ (retrieve : Nat → Except Exc (List Row)) (e : Exc) (p : Option Permission),
      retrieve 1 = .error e →
      runWithPolicy none retrieve = (.error e, 1) ∧
      get_df none retrieve p = .error e) := by
  refine ⟨?_, ?_, ?_⟩
  · intro retryOn m retrieve f hm hfail hret
    have h := runRetryAux_all_fail retryOn retrieve f hfail hret (m - 1) 1
    have harith : 1 + (m - 1) = m := by omega
    rw [harith] at h
    exact h
  · intro retryOn retrieve e h1
    show runRetryAux retryOn retrieve 0 1 = _
    simp [runRetryAux, h1]
  · intro retrieve e p h1
    have hrun : runWithPolicy none retrieve = (.error e, 1) := by
      simp [runWithPolicy, h1]
    exact ⟨hrun, by simp [get_df, get_slice, hrun]⟩

/-- Witness for C6: the always-failing RuntimeError retrieval under a
budget of 2 attempts propagates the RuntimeError itself after 2 attempts;
under max_attempts = 1 and under a disabled policy it propagates after the
single first attempt, as in test_no_retry_on_df. -/
theorem exhausted_attempts_propagate_last_failure_witness :
    runRetry retryAll 2 failingRetrieve = (.error runtimeError, 2) ∧
    runRetry retryOnValueError 1 failingRetrieve = (.error runtimeError, 1) ∧
    (runWithPolicy none failingRetrieve = (.error runtimeError, 1) ∧
      get_df none failingRetrieve none = .error runtimeError) :=
  ⟨exhausted_attempts_propagate_last_failure.1 retryAll 2 failingRetrieve
      (fun _ => runtimeError) (by decide) (fun _ => rfl) (fun _ => rfl),
   exhausted_attempts_propagate_last_failure.2.1 retryOnValueError
      failingRetrieve runtimeError rfl,
   exhausted_attempts_propagate_last_failure.2.2 failingRetrieve
      runtimeError none rfl⟩

/-- Claim C3: cache keys separate distinct identities — data sources that
agree everywhere except in the query string receive different keys; data
sources that agree everywhere except in the parameters mapping (mappings
with distinct keys that disagree at some key) receive different keys; and
the same connector and data source with different Permissions arguments
receive different keys. -/
theorem cache_key_separates_identities :
    (∀ (c : ConnectorConfig) (ds1 ds2 : DataSourceModel) (p : Option Permission),
      ds1.domain = ds2.domain → ds1.name = ds2.name →
      ds1.parameters = ds2.parameters → ds1.query ≠ ds2.query →
      get_cache_key c (some ds1) p ≠ get_cache_key c (some ds2) p) ∧
    (∀ (c : ConnectorConfig) (ds1 ds2 : DataSourceModel) (p : Option Permission),
      (ds1.parameters.map Prod.fst).Nodup →
      (∃ k, plookup k ds1.parameters ≠ plookup k ds2.parameters) →
      get_cache_key c (some ds1) p ≠ get_cache_key c (some ds2) p) ∧
    (∀ (c : ConnectorConfig) (ds : Option DataSourceModel)
      (p1 p2 : Option Permission), p1 ≠ p2 →
      get_cache_key c ds p1 ≠ get_cache_key c ds p2) := by
  refine ⟨?_, ?_, ?_⟩
  · intro c ds1 ds2 p _ _ _ hq heq
    have h2 : dsRepr ds1 = dsRepr ds2 := by
      simpa [get_cache_key] using congrArg CacheKey.datasource heq
    exact hq (by simpa [dsRepr] using congrArg DataSourceRepr.query h2)
  · intro c ds1 ds2 p hnd hdiff heq
    obtain ⟨k, hk⟩ := hdiff
    have h2 : dsRepr ds1 = dsRepr ds2 := by
      simpa [get_cache_key] using congrArg CacheKey.datasource heq
    have hcanon : canonParams ds1.parameters = canonParams ds2.parameters := by
      simpa [dsRepr] using congrArg DataSourceRepr.parameters h2
    have hB : List.Perm (canonParams ds1.parameters) ds2.parameters := by
      rw [hcanon]
      exact canonParams_perm ds2.parameters
    have hperm : List.Perm ds1.parameters ds2.parameters :=
      (canonParams_perm ds1.parameters).symm.trans hB
    exact hk (plookup_eq_of_perm k ds1.parameters ds2.parameters hperm hnd)
  · intro c ds p1 p2 hne heq
    exact hne (by simpa [get_cache_key] using congrArg CacheKey.permissions heq)

/-- Witness for C3 at the test inputs: queries "much caching" versus
"wow"; parameters a=1 versus a=2; permissions present versus absent. -/
theorem cache_key_separates_identities_witness :
    get_cache_key testConnector (some dsQueryA) none
      ≠ get_cache_key testConnector (some dsQueryB) none ∧
    get_cache_key testConnector (some dsParams1) none
      ≠ get_cache_key testConnector (some dsParams2) none ∧
    get_cache_key testConnector (some dsParams1) (some permIn)
      ≠ get_cache_key testConnector (some dsParams1) none :=
  ⟨cache_key_separates_identities.1 testConnector dsQueryA dsQueryB none
      rfl rfl rfl (by decide),
   cache_key_separates_identities.2.1 testConnector dsParams1 dsParams2 none
      (by decide) ⟨"a", by decide⟩,
   cache_key_separates_identities.2.2 testConnector (some dsParams1)
      (some permIn) none (by decide)⟩

/-- Claim C7: slicing semantics of get_slice — on a retrieved (and
already filtered: no permissions) result of n rows, with offset k and
optional limit m, the call succeeds; total_returned_rows is n; the
returned rows are exactly the rows at positions k+1 through min(k+m, n)
(all remaining rows when the limit is unset) in the original order; and an
offset at or beyond n yields an empty result rather than an error. -/
theorem get_slice_semantics (rows : List Row) (k : Nat) (m : Option Nat) :
    ∃ slice : DataSlice,
      get_slice (some defaultRetryPolicy) (fun _ => .ok rows) none k m
        = .ok slice ∧
      slice.stats.total_returned_rows = rows.length ∧
      slice.df.length = min (m.getD (rows.length - k)) (rows.length - k) ∧
      (∀ i : Nat, i < slice.df.length →
        slice.df[i]? = (rows.map normalizeRow)[k + i]?) ∧
      (rows.length ≤ k → slice.df = []) := by
  have hg : get_slice (some defaultRetryPolicy) (fun _ => .ok rows) none k m
      = process_df rows none k m :=
    get_slice_ok (some defaultRetryPolicy) (fun _ => .ok rows) rows none k m rfl
  cases m with
  | none =>
    refine ⟨⟨(rows.map normalizeRow).drop k,
      ⟨(rows.map normalizeRow).length⟩⟩, ?_, ?_, ?_, ?_, ?_⟩
    · rw [hg]
      rfl
    · simp
    · simp
    · intro i _
      simp [List.getElem?_drop]
    · intro h
      exact List.drop_eq_nil_of_le (by simpa using h)
  | some mm =>
    refine ⟨⟨((rows.map normalizeRow).drop k).take mm,
      ⟨(rows.map normalizeRow).length⟩⟩, ?_, ?_, ?_, ?_, ?_⟩
    · rw [hg]
      rfl
    · simp
    · simp
    · intro i hi
      have hlen : (((rows.map normalizeRow).drop k).take mm).length ≤ mm := by
        rw [List.length_take]
        exact Nat.min_le_left _ _
      rw [List.getElem?_take_of_lt (lt_of_lt_of_le hi hlen), List.getElem?_drop]
    · intro h
      have hd : (rows.map normalizeRow).drop k = [] :=
        List.drop_eq_nil_of_le (by simpa using h)
      simp [hd]

/-- Witness for C7 at the inputs of test_get_slice: five rows, offset 2,
limit 2 — rows 3 and 4 are returned and total_returned_rows is 5. -/
theorem get_slice_semantics_witness :
    ∃ slice : DataSlice,
      get_slice (some defaultRetryPolicy) (fun _ => .ok fiveRows) none 2 (some 2)
        = .ok slice ∧
      slice.stats.total_returned_rows = fiveRows.length ∧
      slice.df.length
        = min ((some 2).getD (fiveRows.length - 2)) (fiveRows.length - 2) ∧
      (∀ i : Nat, i < slice.df.length →
        slice.df[i]? = (fiveRows.map normalizeRow)[2 + i]?) ∧
      (fiveRows.length ≤ 2 → slice.df = []) :=
  get_slice_semantics fiveRows 2 (some 2)

/-- Claim C8: permission filtering in get_df — with a Permissions
expression supplied (well-formed and evaluable on every row), get_df
returns exactly the rows satisfying the expression, in order; with no
Permissions, no row is removed; with an unsupported operator, the call
fails with a ValidationError. -/
theorem permission_filtering_semantics :
    (∀ (rows : List Row) (p : Permission),
      validatePermission p = .ok () →
      (∀ r ∈ rows, evalDefined p r = true) →
      get_df (some defaultRetryPolicy) (fun _ => .ok rows) (some p)
        = .ok ((rows.filter (rowPasses p)).map normalizeRow)) ∧
    (∀ rows : List Row,
      get_df (some defaultRetryPolicy) (fun _ => .ok rows) none
        = .ok (rows.map normalizeRow)) ∧
    (∀ (rows : List Row) (column op : String) (value : PermVal),
      op ∉ supportedOps →
      get_df (some defaultRetryPolicy) (fun _ => .ok rows)
          (some (.cond column op value))
        = .error ⟨"ValidationError", "unsupported operator " ++ op⟩) := by
  refine ⟨?_, ?_, ?_⟩
  · intro rows p hval hdef
    have hg := get_slice_ok (some defaultRetryPolicy) (fun _ => .ok rows)
      rows (some p) 0 none rfl
    simp [get_df, hg, process_df, filterRows, hval,
      filterRowsAux_eq_filter p rows hdef]
  · intro rows
    have hg := get_slice_ok (some defaultRetryPolicy) (fun _ => .ok rows)
      rows none 0 none rfl
    simp [get_df, hg, process_df, filterRows]
  · intro rows column op value hop
    have hg := get_slice_ok (some defaultRetryPolicy) (fun _ => .ok rows)
      rows (some (.cond column op value)) 0 none rfl
    simp [get_df, hg, process_df, filterRows, validatePermission, hop]

/-- Witness for C8 at the inputs of test_get_df_with_permissions: rows
A=1 and A=2 with permission (A eq 1) keep only the first row; without
permissions both rows survive; the unsupported operator "matches" fails
with a ValidationError. -/
theorem permission_filtering_semantics_witness :
    get_df (some defaultRetryPolicy) (fun _ => .ok rowsA) (some permEqA)
      = .ok ((rowsA.filter (rowPasses permEqA)).map normalizeRow) ∧
    get_df (some defaultRetryPolicy) (fun _ => .ok rowsA) none
      = .ok (rowsA.map normalizeRow) ∧
    get_df (some defaultRetryPolicy) (fun _ => .ok rowsA)
        (some (.cond "A" "matches" (.prim (.int 1))))
      = .error ⟨"ValidationError", "unsupported operator " ++ "matches"⟩ :=
  ⟨permission_filtering_semantics.1 rowsA permEqA rfl (by decide),
   permission_filtering_semantics.2.1 rowsA,
   permission_filtering_semantics.2.2 rowsA "A" "matches"
     (.prim (.int 1)) (by decide)⟩

/-- Claim C10 (refuting evaluation): fetch_wootric_data does not stay
within bounds and duplicates work.  With max_pages = 11 (inside the
schema-allowed range 1..30) and every page returning one document, the
inner URL range restarts at page 1 on every outer batch, so the URL for
page 1 is built twice and a URL for page 21 — beyond max_pages — is
requested, contradicting the docstring of max_pages ("maximum number of
pages to crawl"). -/
theorem wootric_pagination_requests_out_of_bounds :
    ((fetch_wootric_data (fun _ => [[("id", "1")]]) "q" none 5 11).2).count
        "q&page=1&per_page=5" = 2 ∧
    "q&page=21&per_page=5"
      ∈ (fetch_wootric_data (fun _ => [[("id", "1")]]) "q" none 5 11).2 ∧
    11 < 21 := by
  refine ⟨?_, ?_, ?_⟩ <;> decide
